import Mathlib

/-!
Shallow embedding of the Bark game engine's collision subsystem and
script/behavior lifecycle (from `src/engine/entities.js`,
`src/engine/engine.js` and the `Scene` class file), together with proofs of
the specification's claims about them.

Conventions of the embedding:
* JS numbers are modelled as `ℚ`; `Math.floor` is `Int.floor`.
* The `Uint8Array` collision buffer is a `List Nat`; a JS read
  `arr[i] === 1` out of range yields `undefined === 1 = false`, which
  `List.getD _ 0 == 1` reproduces.
* Mutable objects become explicit state records; a method that mutates its
  object returns the updated record.
-/

namespace Bark

/-- One entity as the `Scene.update` loop sees it: position, velocity, the
`active`/`solid` flags and the `collisionBounds` rectangle
(`width`, `height`, `offset`) of `src/engine/entities.js`.  The effect of an
attached script's `update(deltaTime)` and of an `onCollision` handler is
arbitrary JS code, so both are modelled as indices into an environment of
state transformers (`Env`); `onCollision := none` models an entity without
that optional hook.  Animation bookkeeping fields (`animationFrame`,
`animationTimer`), which none of the claims mention and which do not feed
back into position or collision, are elided. -/
structure Ecore where
  x : ℚ
  y : ℚ
  velocityX : ℚ
  velocityY : ℚ
  active : Bool
  solid : Bool
  boundsWidth : ℚ
  boundsHeight : ℚ
  offsetX : ℚ
  offsetY : ℚ
  scriptIds : List Nat
  onCollision : Option Nat
deriving DecidableEq

/-- Environment giving the meaning of script `update` methods and of
`onCollision` hooks: arbitrary transformations of the entity that owns
them. -/
structure Env where
  scriptUpd : Nat → ℚ → Ecore → Ecore
  onColl : Nat → Ecore → Ecore

/-- The `Scene` state used by the claims: the map dimensions, the collision
buffer (`none` models `this.collisionData === null`, i.e. no map loaded),
the entity set (as a list in iteration order) and the `isActive`/`isPaused`
flags. -/
structure Scene where
  mapWidth : Nat
  mapHeight : Nat
  collisionData : Option (List Nat)
  entities : List Ecore
  isActive : Bool
  isPaused : Bool

/-- `Scene.checkCollision(x, y)`: floor the coordinates, treat out of bounds
as a collision, otherwise read `collisionData[y*mapWidth+x] === 1`. -/
def checkCollision (s : Scene) (x y : ℚ) : Bool :=
  match s.collisionData with
  | none => false
  | some data =>
    let xi : Int := ⌊x⌋
    let yi : Int := ⌊y⌋
    if xi < 0 || (s.mapWidth : Int) ≤ xi || yi < 0 || (s.mapHeight : Int) ≤ yi then
      true
    else
      data.getD (yi.toNat * s.mapWidth + xi.toNat) 0 == 1

/-- `Scene.checkRectCollision(x, y, width, height)`: floor all four inputs,
then test only the perimeter: the loop `for (i = x; i < x + width; i++)`
checks `(i, y)` and `(i, y + height - 1)`, and the loop
`for (i = y; i < y + height; i++)` checks `(x, i)` and
`(x + width - 1, i)`. -/
def checkRectCollision (s : Scene) (x y width height : ℚ) : Bool :=
  match s.collisionData with
  | none => false
  | some _ =>
    let xi : Int := ⌊x⌋
    let yi : Int := ⌊y⌋
    let w : Int := ⌊width⌋
    let h : Int := ⌊height⌋
    ((List.range w.toNat).any fun k =>
        checkCollision s ((xi + k : Int) : ℚ) ((yi : Int) : ℚ)
          || checkCollision s ((xi + k : Int) : ℚ) ((yi + h - 1 : Int) : ℚ))
      || ((List.range h.toNat).any fun k =>
        checkCollision s ((xi : Int) : ℚ) ((yi + k : Int) : ℚ)
          || checkCollision s ((xi + w - 1 : Int) : ℚ) ((yi + k : Int) : ℚ))

/-- The integers of the closed interval `[a, b]`, in order: the JS loop
`for (v = a; v <= b; v++)`. -/
def intRange (a b : Int) : List Int :=
  (List.range (b + 1 - a).toNat).map fun (k : Nat) => a + (k : Int)

/-- `Scene.getCollisionPixelsInArea(x, y, width, height)`: floor the inputs,
clamp to `startX = max(0,x)`, `endX = min(mapWidth-1, x+width)` (and the same
for `y`), then collect every `(px, py)` with `startY ≤ py ≤ endY`,
`startX ≤ px ≤ endX` for which `checkCollision(px, py)` holds, outer loop on
`py`. -/
def getCollisionPixelsInArea (s : Scene) (x y width height : ℚ) : List (Int × Int) :=
  let xi : Int := ⌊x⌋
  let yi : Int := ⌊y⌋
  let w : Int := ⌊width⌋
  let h : Int := ⌊height⌋
  let startX := max 0 xi
  let startY := max 0 yi
  let endX := min ((s.mapWidth : Int) - 1) (xi + w)
  let endY := min ((s.mapHeight : Int) - 1) (yi + h)
  (intRange startY endY).flatMap fun (py : Int) =>
    (intRange startX endX).filterMap fun (px : Int) =>
      if checkCollision s (px : ℚ) (py : ℚ) then some (px, py) else none

/-- Claim-side predicate: the pixel `(px, py)` lies outside the grid bounds
or its occupancy entry is `1`. -/
def solidOrOut (s : Scene) (data : List Nat) (px py : Int) : Prop :=
  px < 0 ∨ (s.mapWidth : Int) ≤ px ∨ py < 0 ∨ (s.mapHeight : Int) ≤ py ∨
    data.getD (py.toNat * s.mapWidth + px.toNat) 0 = 1

instance (s : Scene) (data : List Nat) (px py : Int) :
    Decidable (solidOrOut s data px py) := by
  unfold solidOrOut; infer_instance

/-- Claim-side predicate: `(px, py)` lies on the perimeter (top row, bottom
row, left column, right column) of the pixel rectangle with corner
`(xi, yi)`, width `w` and height `h`. -/
def onPerimeter (xi yi w h px py : Int) : Prop :=
  (py = yi ∧ xi ≤ px ∧ px ≤ xi + w - 1) ∨
  (py = yi + h - 1 ∧ xi ≤ px ∧ px ≤ xi + w - 1) ∨
  (px = xi ∧ yi ≤ py ∧ py ≤ yi + h - 1) ∨
  (px = xi + w - 1 ∧ yi ≤ py ∧ py ≤ yi + h - 1)

lemma checkCollision_intCast (s : Scene) (data : List Nat)
    (hdata : s.collisionData = some data) (px py : Int) :
    (checkCollision s (px : ℚ) (py : ℚ) = true ↔ solidOrOut s data px py) := by
  unfold checkCollision solidOrOut
  rw [hdata]
  simp only [Int.floor_intCast]
  by_cases hx0 : px < 0 <;> by_cases hx1 : (s.mapWidth : Int) ≤ px <;>
    by_cases hy0 : py < 0 <;> by_cases hy1 : (s.mapHeight : Int) ≤ py <;>
    simp [hx0, hx1, hy0, hy1]

/-- `Entity.update(deltaTime)` from `src/engine/entities.js`: return
unchanged if not `active`; otherwise run every attached script's `update`
(in attachment order), then integrate velocity:
`x += velocityX * deltaTime; y += velocityY * deltaTime`.  (The trailing
animation-frame bookkeeping touches only the elided animation fields.) -/
def entityUpdate (env : Env) (dt : ℚ) (e : Ecore) : Ecore :=
  if ¬ e.active then e
  else
    let e1 := e.scriptIds.foldl (fun acc sid => env.scriptUpd sid dt acc) e
    { e1 with x := e1.x + e1.velocityX * dt, y := e1.y + e1.velocityY * dt }

/-- `Scene.update(deltaTime)`: no-op unless `isActive` and not `isPaused`;
otherwise, per entity: if `active && solid`, snapshot the position, run
`entity.update(deltaTime)`, read the post-update `collisionBounds`, test
`checkRectCollision(x + offset.x, y + offset.y, width, height)` against this
scene, and on a hit restore the snapshot position and call `onCollision` if
the entity has one; if merely `active`, run `entity.update(deltaTime)` with
no collision test; otherwise leave the entity alone. -/
def sceneUpdate (env : Env) (s : Scene) (dt : ℚ) : Scene :=
  if ¬ s.isActive || s.isPaused then s
  else
    { s with entities := s.entities.map fun e =>
        if e.active && e.solid then
          let oldX := e.x
          let oldY := e.y
          let e1 := entityUpdate env dt e
          if checkRectCollision s (e1.x + e1.offsetX) (e1.y + e1.offsetY)
              e1.boundsWidth e1.boundsHeight then
            let e2 := { e1 with x := oldX, y := oldY }
            match e2.onCollision with
            | some hid => env.onColl hid e2
            | none => e2
          else e1
        else if e.active then
          entityUpdate env dt e
        else e }

/-- Claim-side restatement of the per-entity step of `Scene.update`, written
from the specification's words: for an entity flagged both active and solid,
capture the pre-update position, call `Entity.Update(deltaTime)`, compute
the world-space collision rectangle from position plus
`collisionBounds.offset` with the bounds' width/height, query the rectangle
occupancy; on a hit revert both coordinates to the snapshot and invoke the
`onCollision` hook if present.  An active non-solid entity is updated with
no collision check; an inactive entity is skipped. -/
def sceneStepSpec (env : Env) (s : Scene) (dt : ℚ) (e : Ecore) : Ecore :=
  if e.active = true ∧ e.solid = true then
    let snapshotX := e.x
    let snapshotY := e.y
    let updated := entityUpdate env dt e
    let hit := checkRectCollision s (updated.x + updated.offsetX)
      (updated.y + updated.offsetY) updated.boundsWidth updated.boundsHeight
    if hit then
      let reverted := { updated with x := snapshotX, y := snapshotY }
      match reverted.onCollision with
      | some hid => env.onColl hid reverted
      | none => reverted
    else updated
  else if e.active = true then
    entityUpdate env dt e
  else e

/-! ### The script/behavior attachment lifecycle

`Engine.loadScript` / `Entity.attachScript` from `src/engine/engine.js` and
`src/engine/entities.js`.  The outcomes of the external module import, of
the script-class constructor and of the instance's `init()` are inputs the
engine does not control; they are modelled by a `ScriptEnv` of oracles
indexed by script name.  Script instances are identified by the order of
their construction on the entity (`EntityS.nextId`).  Observable calls are
recorded as events so that "constructs no new instance" and "`init` runs
exactly once" are statable. -/

/-- Events observable during `attachScript`: a `loadScript` attempt, a
constructor invocation, an `init()` invocation. -/
inductive Ev where
  | load (n : String)
  | construct (n : String)
  | init (n : String)
deriving DecidableEq

/-- Oracles for the parts of the world `attachScript` reacts to but does not
decide: whether `Engine.loadScript` would succeed for a name not yet loaded,
whether `new ScriptClass(entity)` throws, whether the instance has an
`init` method, and whether that `init()` resolves or throws. -/
structure ScriptEnv where
  loadOk : String → Bool
  ctorOk : String → Bool
  hasInit : String → Bool
  initOk : String → Bool

/-- The engine state `attachScript` reads and `loadScript` mutates: the set
of registered script classes (`engine.scripts`), as the list of their
names. -/
structure EngineS where
  loaded : List String
deriving DecidableEq

/-- The entity state `attachScript` mutates: `this.scripts`, the mapping
from script name to attached instance (insertion order kept), plus the
counter producing fresh instance identities. -/
structure EntityS where
  scripts : List (String × Nat)
  nextId : Nat
deriving DecidableEq

/-- Result of one `attachScript` call: the returned instance (or `null`),
the updated engine and entity states, and the recorded events. -/
structure AttachResult where
  result : Option Nat
  engine : EngineS
  entity : EntityS
  events : List Ev
deriving DecidableEq

/-- `Entity.attachScript` after the load step: return the existing instance
if `this.scripts` already has the name (warning only, nothing re-run);
otherwise construct `new ScriptClass(this)` — a throw is caught and `null`
returned with no mutation — insert the instance into `this.scripts`, and
then, if the instance has an `init` method, await it; a throw in `init` is
caught and `null` returned, but the inserted instance is not removed. -/
def attachAfterLoad (env : ScriptEnv) (g : EngineS) (e : EntityS) (n : String)
    (evs : List Ev) : AttachResult :=
  match e.scripts.lookup n with
  | some i => ⟨some i, g, e, evs⟩
  | none =>
    let evs := evs ++ [Ev.construct n]
    if env.ctorOk n then
      let inst := e.nextId
      let e1 : EntityS := ⟨e.scripts ++ [(n, inst)], e.nextId + 1⟩
      if env.hasInit n then
        let evs := evs ++ [Ev.init n]
        if env.initOk n then ⟨some inst, g, e1, evs⟩
        else ⟨none, g, e1, evs⟩
      else ⟨some inst, g, e1, evs⟩
    else ⟨none, g, e, evs⟩

/-- `Entity.attachScript(scriptName)`: if the script is not loaded, call
`Engine.loadScript` (which registers the name on success); a `false` result
makes `attachScript` throw, and the catch returns `null` with nothing
mutated.  Then proceed as `attachAfterLoad`.  (`debug.trackObject` touches
no entity or engine script state and is elided.) -/
def attachScript (env : ScriptEnv) (g : EngineS) (e : EntityS) (n : String) :
    AttachResult :=
  if g.loaded.contains n then
    attachAfterLoad env g e n []
  else if env.loadOk n then
    attachAfterLoad env ⟨n :: g.loaded⟩ e n [Ev.load n]
  else
    ⟨none, g, e, [Ev.load n]⟩

/-! ### The `Override` method interceptor

From `src/engine/engine.js`.  A JS object is modelled as a table of named
methods.  A method is a state transformer `α → σ → σ × β`: it takes the
call's arguments and the current state of the world reachable from the
object and the behavior instance (which is what `this`-binding gives access
to), and returns the updated state and the return value.  Hook functions
may have a different return type `γ`; their return value is discarded by
the wrappers, exactly as in the source. -/

/-- A target object: `entity[name]` is `some` method when
`typeof entity[name] === 'function'`. -/
structure JSObj (σ α β : Type) where
  methods : String → Option (α → σ → σ × β)

namespace Override

/-- `Override.getFunctionByName`: resolve `entity[functionName]` and return
it bound to the entity (binding is implicit in the state-passing model),
or `null` when it is not callable. -/
def getFunctionByName {σ α β : Type} (entity : JSObj σ α β)
    (functionName : String) : Option (α → σ → σ × β) :=
  entity.methods functionName

/-- `Override.before(functionName, fn)`: when the original resolves,
replace the method with a wrapper that first runs `fn` (bound to the
behavior instance) on the call's arguments, discards its return value, then
runs the original on the same arguments, returning the original's result;
report success.  When the original does not resolve, return `false` and
mutate nothing. -/
def before {σ α β γ : Type} (entity : JSObj σ α β) (functionName : String)
    (fn : α → σ → σ × γ) : Bool × JSObj σ α β :=
  match getFunctionByName entity functionName with
  | none => (false, entity)
  | some originalFn =>
    (true, ⟨fun m =>
      if m = functionName then
        some fun args s => originalFn args (fn args s).1
      else entity.methods m⟩)

/-- `Override.after(functionName, fn)`: when the original resolves, replace
the method with a wrapper that runs the original first, captures its
result, then runs `fn` (bound to the behavior instance) on the same
arguments, discarding its return value, and returns the captured result;
report success.  When the original does not resolve, return `false` and
mutate nothing. -/
def after {σ α β γ : Type} (entity : JSObj σ α β) (functionName : String)
    (fn : α → σ → σ × γ) : Bool × JSObj σ α β :=
  match getFunctionByName entity functionName with
  | none => (false, entity)
  | some originalFn =>
    (true, ⟨fun m =>
      if m = functionName then
        some fun args s =>
          let r := originalFn args s
          ((fn args r.1).1, r.2)
      else entity.methods m⟩)

end Override

/-! ### The player's axis-separated movement

`Player.update` / `Player.checkCollision` from `src/engine/entities.js`. -/

/-- The player state read and written by `Player.update`: position,
velocity, `speed`, the input flags, and the player's `collisionBounds`
(width, height, offset).  Attached scripts, whose `update` runs last, are
modelled as indices into an environment of state transformers, as for
`Ecore`. -/
structure PlayerS where
  x : ℚ
  y : ℚ
  velocityX : ℚ
  velocityY : ℚ
  speed : ℚ
  inputUp : Bool
  inputDown : Bool
  inputLeft : Bool
  inputRight : Bool
  offsetX : ℚ
  offsetY : ℚ
  boundsWidth : ℚ
  boundsHeight : ℚ
  scriptIds : List Nat
deriving DecidableEq

/-- `Player.checkCollision()`: `false` when there is no current scene;
otherwise `scene.checkRectCollision` on the world-space bounds
`(x + offset.x, y + offset.y, width, height)`. -/
def playerCheckCollision (scene : Option Scene) (p : PlayerS) : Bool :=
  match scene with
  | none => false
  | some s =>
    checkRectCollision s (p.x + p.offsetX) (p.y + p.offsetY)
      p.boundsWidth p.boundsHeight

/-- `Player.update(deltaTime)`: snapshot the position; recompute velocity
from the input flags (`down` overrides `up`, `right` overrides `left`);
scale both components by the normalizer when moving diagonally (the source
multiplies by `1 / Math.sqrt(2)`, an irrational constant its floating-point
arithmetic only approximates; it is kept as an abstract parameter since the
movement-resolution logic does not depend on its value); then move on X
alone and on a collision revert `x` and zero `velocityX`; then move on Y
alone and on a collision revert `y` and zero `velocityY`; finally run the
attached scripts' `update` methods. -/
def playerUpdate (penv : Nat → ℚ → PlayerS → PlayerS) (normalizer : ℚ)
    (scene : Option Scene) (dt : ℚ) (p : PlayerS) : PlayerS :=
  let previousX := p.x
  let previousY := p.y
  let p := { p with velocityX := 0, velocityY := 0 }
  let p := if p.inputUp then { p with velocityY := -p.speed } else p
  let p := if p.inputDown then { p with velocityY := p.speed } else p
  let p := if p.inputLeft then { p with velocityX := -p.speed } else p
  let p := if p.inputRight then { p with velocityX := p.speed } else p
  let p :=
    if p.velocityX ≠ 0 ∧ p.velocityY ≠ 0 then
      { p with velocityX := p.velocityX * normalizer,
               velocityY := p.velocityY * normalizer }
    else p
  let p := { p with x := p.x + p.velocityX * dt }
  let p :=
    if playerCheckCollision scene p then { p with x := previousX, velocityX := 0 }
    else p
  let p := { p with y := p.y + p.velocityY * dt }
  let p :=
    if playerCheckCollision scene p then { p with y := previousY, velocityY := 0 }
    else p
  p.scriptIds.foldl (fun acc sid => penv sid dt acc) p

/-- Claim-side: the velocity the input flags produce, diagonal movement
scaled by the normalizer. -/
def inputVelocity (p : PlayerS) (normalizer : ℚ) : ℚ × ℚ :=
  let vy := if p.inputDown then p.speed else if p.inputUp then -p.speed else 0
  let vx := if p.inputRight then p.speed else if p.inputLeft then -p.speed else 0
  if vx ≠ 0 ∧ vy ≠ 0 then (vx * normalizer, vy * normalizer) else (vx, vy)

/-- Claim-side restatement of the movement phase of `Player.update`,
written from the specification's words: resolve the axes in the fixed order
X before Y.  Apply the X displacement alone and collision-test it; on a hit
revert `x` to its pre-update value and zero `velocityX`, leaving the Y
displacement and `velocityY` untouched.  Then apply the Y displacement
alone and collision-test it; on a hit revert `y` and zero `velocityY`,
leaving the X outcome untouched. -/
def playerMoveSpec (normalizer : ℚ) (scene : Option Scene) (dt : ℚ)
    (p : PlayerS) : PlayerS :=
  let v := inputVelocity p normalizer
  let afterX :=
    { p with velocityX := v.1, velocityY := v.2, x := p.x + v.1 * dt }
  let resolvedX :=
    if playerCheckCollision scene afterX then
      { afterX with x := p.x, velocityX := 0 }
    else afterX
  let afterY := { resolvedX with y := resolvedX.y + v.2 * dt }
  if playerCheckCollision scene afterY then
    { afterY with y := p.y, velocityY := 0 }
  else afterY

lemma mem_intRange {a b v : Int} : v ∈ intRange a b ↔ a ≤ v ∧ v ≤ b := by
  unfold intRange
  simp only [List.mem_map, List.mem_range]
  constructor
  · rintro ⟨k, hk, rfl⟩
    omega
  · rintro ⟨h1, h2⟩
    exact ⟨(v - a).toNat, by omega, by omega⟩

/-! ## Theorems for the claims -/

/-- C2: for every target object with a callable method `f` stored under
name `n`, every behavior instance and every hook `g`: `Override.before n g`
returns `true`, and the wrapped `target[n]`, called with arguments `args`,
first invokes `g` (bound to the behavior instance) with `args` — its
return value discarded, only its state effect kept — then invokes the
original `f` with the same `args` on the resulting state, and returns `f`'s
result. -/
theorem override_before_spec {σ α β γ : Type} (entity : JSObj σ α β)
    (n : String) (g : α → σ → σ × γ) (f : α → σ → σ × β)
    (hf : entity.methods n = some f) :
    (Override.before entity n g).1 = true ∧
      (Override.before entity n g).2.methods n =
        some fun args s => f args (g args s).1 := by
  unfold Override.before Override.getFunctionByName
  rw [hf]
  exact ⟨rfl, by simp⟩

/-- The original method of the demonstration object: logs `[a, 1]` and
returns `a + 10`. -/
def demoF : Nat → List Nat → List Nat × Nat :=
  fun a s => (s ++ [a, 1], a + 10)

/-- A demonstration hook with a different return type: logs `[a, 2]` and
returns `true` (to be discarded by the wrappers). -/
def demoG : Nat → List Nat → List Nat × Bool :=
  fun a s => (s ++ [a, 2], true)

/-- A demonstration target object with a single method `"move"`. -/
def demoObj : JSObj (List Nat) Nat Nat :=
  ⟨fun m => if m = "move" then some demoF else none⟩

/-- Witness for C2 at the concrete object `demoObj`. -/
theorem override_before_witness :
    (Override.before demoObj "move" demoG).1 = true ∧
      (Override.before demoObj "move" demoG).2.methods "move" =
        some fun args s => demoF args (demoG args s).1 :=
  override_before_spec demoObj "move" demoG demoF rfl

/-- C3: for every target object with a callable method `f` stored under
name `n`, every behavior instance and every hook `g`: `Override.after n g`
returns `true`, and the wrapped `target[n]`, called with arguments `args`,
first invokes the original `f` with `args` and captures its result, then
invokes `g` (bound to the behavior instance) with the same `args` on the
post-`f` state — its return value discarded — and finally returns the
captured result of `f`. -/
theorem override_after_spec {σ α β γ : Type} (entity : JSObj σ α β)
    (n : String) (g : α → σ → σ × γ) (f : α → σ → σ × β)
    (hf : entity.methods n = some f) :
    (Override.after entity n g).1 = true ∧
      (Override.after entity n g).2.methods n =
        some fun args s => ((g args (f args s).1).1, (f args s).2) := by
  unfold Override.after Override.getFunctionByName
  rw [hf]
  exact ⟨rfl, by simp⟩

/-- Witness for C3 at the concrete object `demoObj`. -/
theorem override_after_witness :
    (Override.after demoObj "move" demoG).1 = true ∧
      (Override.after demoObj "move" demoG).2.methods "move" =
        some fun args s => ((demoG args (demoF args s).1).1, (demoF args s).2) :=
  override_after_spec demoObj "move" demoG demoF rfl

/-- A fully solid `1 × 1` collision grid. -/
def solidScene : Scene :=
  ⟨1, 1, some [1], [], true, false⟩

/-- C10 counterexample: on the fully solid `1 × 1` grid, the degenerate
rectangle `(0, 0, width 0, height 1)` — zero width, so the claim predicts
`false` — reports a collision: the left/right-edge loop still runs for
`height` rows and checks columns `x` and `x + width - 1`. -/
theorem checkRect_degenerate_cex :
    checkRectCollision solidScene 0 0 0 1 = true := by decide

/-- C10 amended: a rectangle query whose floored width and floored height
are both nonpositive — in particular the zero-size point collider — always
returns not-occupied, on every grid state; with only one of the two
dimensions nonpositive the other pair of edge loops still runs and can
report a collision. -/
theorem checkRect_degenerate (s : Scene) (x y w h : ℚ)
    (hw : ⌊w⌋ ≤ 0) (hh : ⌊h⌋ ≤ 0) :
    checkRectCollision s x y w h = false := by
  unfold checkRectCollision
  cases s.collisionData with
  | none => rfl
  | some data =>
    have hw0 : (⌊w⌋).toNat = 0 := by omega
    have hh0 : (⌊h⌋).toNat = 0 := by omega
    simp [hw0, hh0]

/-- Witness for the amended C10 on the fully solid grid: the zero-size
point collider sitting on a solid pixel reports no collision. -/
theorem checkRect_degenerate_witness :
    checkRectCollision solidScene 0 0 0 0 = false :=
  checkRect_degenerate solidScene 0 0 0 0 (by decide) (by decide)

/-- C5: on a built grid, `checkCollision` integer-floors the coordinates;
out of bounds is treated as occupied (fail-closed), and in bounds the
result is exactly whether `collisionData[y*width+x]` is `1` (the read
`List.getD _ 0` equals the true buffer entry whenever the grid invariant
`occupancy.length = width * height` holds, and reproduces JS's
`undefined === 1 = false` otherwise). -/
theorem checkCollision_spec (s : Scene) (data : List Nat)
    (hdata : s.collisionData = some data) (x y : ℚ) :
    ((⌊x⌋ < 0 ∨ (s.mapWidth : Int) ≤ ⌊x⌋ ∨ ⌊y⌋ < 0 ∨ (s.mapHeight : Int) ≤ ⌊y⌋) →
        checkCollision s x y = true) ∧
      (0 ≤ ⌊x⌋ → ⌊x⌋ < (s.mapWidth : Int) → 0 ≤ ⌊y⌋ → ⌊y⌋ < (s.mapHeight : Int) →
        (checkCollision s x y = true ↔
          data.getD ((⌊y⌋).toNat * s.mapWidth + (⌊x⌋).toNat) 0 = 1)) := by
  unfold checkCollision
  rw [hdata]
  by_cases h1 : ⌊x⌋ < 0 <;> by_cases h2 : (s.mapWidth : Int) ≤ ⌊x⌋ <;>
    by_cases h3 : ⌊y⌋ < 0 <;> by_cases h4 : (s.mapHeight : Int) ≤ ⌊y⌋ <;>
    simp [h1, h2, h3, h4]

/-- C4: on a built grid, for positive floored width and height,
`checkRectCollision` reports a collision exactly when some pixel on the
rectangle's perimeter (top row, bottom row, left column, right column) is
occupied or lies out of the grid bounds.  In particular it returns `true`
when a solid pixel lies exactly on the rectangle's border, and `false` when
the only solid pixel is strictly interior, touching no border pixel of an
in-bounds rectangle. -/
theorem checkRect_perimeter_spec (s : Scene) (data : List Nat)
    (hdata : s.collisionData = some data) (x y w h : ℚ)
    (hw : 1 ≤ ⌊w⌋) (hh : 1 ≤ ⌊h⌋) :
    (checkRectCollision s x y w h = true ↔
      ∃ px py : Int, onPerimeter ⌊x⌋ ⌊y⌋ ⌊w⌋ ⌊h⌋ px py ∧
        solidOrOut s data px py) := by
  unfold checkRectCollision
  rw [hdata]
  simp only [List.any_eq_true, List.mem_range, Bool.or_eq_true,
    checkCollision_intCast s data hdata]
  unfold onPerimeter
  constructor
  · rintro (⟨k, hk, hc | hc⟩ | ⟨k, hk, hc | hc⟩)
    · exact ⟨⌊x⌋ + k, ⌊y⌋, Or.inl ⟨rfl, by omega, by omega⟩, hc⟩
    · exact ⟨⌊x⌋ + k, ⌊y⌋ + ⌊h⌋ - 1, Or.inr (Or.inl ⟨rfl, by omega, by omega⟩), hc⟩
    · exact ⟨⌊x⌋, ⌊y⌋ + k, Or.inr (Or.inr (Or.inl ⟨rfl, by omega, by omega⟩)), hc⟩
    · exact ⟨⌊x⌋ + ⌊w⌋ - 1, ⌊y⌋ + k,
        Or.inr (Or.inr (Or.inr ⟨rfl, by omega, by omega⟩)), hc⟩
  · rintro ⟨px, py, ⟨hpy, h1, h2⟩ | ⟨hpy, h1, h2⟩ | ⟨hpx, h1, h2⟩ | ⟨hpx, h1, h2⟩,
      hsolid⟩
    · subst hpy
      refine Or.inl ⟨(px - ⌊x⌋).toNat, by omega, Or.inl ?_⟩
      have e1 : ⌊x⌋ + (((px - ⌊x⌋).toNat : Nat) : Int) = px := by omega
      rw [e1]; exact hsolid
    · subst hpy
      refine Or.inl ⟨(px - ⌊x⌋).toNat, by omega, Or.inr ?_⟩
      have e1 : ⌊x⌋ + (((px - ⌊x⌋).toNat : Nat) : Int) = px := by omega
      rw [e1]; exact hsolid
    · subst hpx
      refine Or.inr ⟨(py - ⌊y⌋).toNat, by omega, Or.inl ?_⟩
      have e1 : ⌊y⌋ + (((py - ⌊y⌋).toNat : Nat) : Int) = py := by omega
      rw [e1]; exact hsolid
    · subst hpx
      refine Or.inr ⟨(py - ⌊y⌋).toNat, by omega, Or.inr ?_⟩
      have e1 : ⌊y⌋ + (((py - ⌊y⌋).toNat : Nat) : Int) = py := by omega
      rw [e1]; exact hsolid

/-- A `2 × 1` grid whose only solid pixel is `(1, 0)`. -/
def demoScene : Scene :=
  ⟨2, 1, some [0, 1], [], true, false⟩

/-- Witness for C5: on the `2 × 1` demo grid, the out-of-bounds point
`(-1, 0)` is reported occupied. -/
theorem checkCollision_spec_witness :
    checkCollision demoScene (-1) 0 = true :=
  (checkCollision_spec demoScene [0, 1] rfl (-1) 0).1 (Or.inl (by decide))

/-- Witness for C4 on the `2 × 1` demo grid, at the `1 × 1` rectangle whose
single (perimeter) pixel is the solid `(1, 0)`. -/
theorem checkRect_perimeter_witness :
    (checkRectCollision demoScene 1 0 1 1 = true ↔
      ∃ px py : Int, onPerimeter ⌊(1 : ℚ)⌋ ⌊(0 : ℚ)⌋ ⌊(1 : ℚ)⌋ ⌊(1 : ℚ)⌋ px py ∧
        solidOrOut demoScene [0, 1] px py) :=
  checkRect_perimeter_spec demoScene [0, 1] rfl 1 0 1 1 (by decide) (by decide)

/-- C6: on a built grid, `(px, py)` is returned by
`getCollisionPixelsInArea(x, y, w, h)` exactly when it lies inside the
query rectangle clamped to the grid bounds — the integer points of the
closed rectangle `[⌊x⌋, ⌊x⌋+⌊w⌋] × [⌊y⌋, ⌊y⌋+⌊h⌋]` intersected with
`[0, width-1] × [0, height-1]`; the code treats the rectangle's right and
bottom edges inclusively — and its occupancy entry is `1`: no occupied
coordinate inside the clamped rectangle is missing and no coordinate
outside it, or unoccupied, is included. -/
theorem getCollisionPixels_spec (s : Scene) (data : List Nat)
    (hdata : s.collisionData = some data) (x y w h : ℚ) (px py : Int) :
    ((px, py) ∈ getCollisionPixelsInArea s x y w h ↔
      max 0 ⌊x⌋ ≤ px ∧ px ≤ min ((s.mapWidth : Int) - 1) (⌊x⌋ + ⌊w⌋) ∧
      max 0 ⌊y⌋ ≤ py ∧ py ≤ min ((s.mapHeight : Int) - 1) (⌊y⌋ + ⌊h⌋) ∧
      data.getD (py.toNat * s.mapWidth + px.toNat) 0 = 1) := by
  unfold getCollisionPixelsInArea
  simp only [List.mem_flatMap, List.mem_filterMap, mem_intRange]
  constructor
  · rintro ⟨py', hy, px', hx, hsome⟩
    by_cases hc : checkCollision s (px' : ℚ) (py' : ℚ) = true
    · rw [if_pos hc] at hsome
      have hpair := Option.some.inj hsome
      have hp1 : px' = px := congrArg Prod.fst hpair
      have hp2 : py' = py := congrArg Prod.snd hpair
      rw [hp1, hp2] at hc
      rcases (checkCollision_intCast s data hdata px py).mp hc with
        hbad | hbad | hbad | hbad | hocc
      · omega
      · omega
      · omega
      · omega
      · exact ⟨by omega, by omega, by omega, by omega, hocc⟩
    · rw [if_neg hc] at hsome
      exact absurd hsome (by simp)
  · rintro ⟨hx1, hx2, hy1, hy2, hocc⟩
    refine ⟨py, ⟨by omega, by omega⟩, px, ⟨by omega, by omega⟩, ?_⟩
    rw [if_pos ((checkCollision_intCast s data hdata px py).mpr
      (Or.inr (Or.inr (Or.inr (Or.inr hocc)))))]

/-- Witness for C6 on the `2 × 1` demo grid: membership of the solid pixel
`(1, 0)` in the area query at `(0, 0, 5, 5)` is characterized by the
clamped rectangle and the occupancy entry. -/
theorem getCollisionPixels_witness :
    ((1, 0) ∈ getCollisionPixelsInArea demoScene 0 0 5 5 ↔
      max 0 ⌊(0 : ℚ)⌋ ≤ (1 : Int) ∧
      (1 : Int) ≤ min ((demoScene.mapWidth : Int) - 1) (⌊(0 : ℚ)⌋ + ⌊(5 : ℚ)⌋) ∧
      max 0 ⌊(0 : ℚ)⌋ ≤ (0 : Int) ∧
      (0 : Int) ≤ min ((demoScene.mapHeight : Int) - 1) (⌊(0 : ℚ)⌋ + ⌊(5 : ℚ)⌋) ∧
      [0, 1].getD ((0 : Int).toNat * demoScene.mapWidth + (1 : Int).toNat) 0 = 1) :=
  getCollisionPixels_spec demoScene [0, 1] rfl 0 0 5 5 1 0

lemma lookup_append_none {l1 l2 : List (String × Nat)} {n : String}
    (h : l1.lookup n = none) : (l1 ++ l2).lookup n = l2.lookup n := by
  induction l1 with
  | nil => rfl
  | cons a t ih =>
    rw [List.cons_append]
    rw [List.lookup_cons] at h ⊢
    rcases hna : (n == a.1) with _ | _
    · rw [hna] at h
      exact ih h
    · rw [hna] at h
      exact absurd h (by simp)

lemma attachScript_loaded {env : ScriptEnv} {g : EngineS} {e : EntityS}
    {n : String} (hc : g.loaded.contains n = true) :
    attachScript env g e n = attachAfterLoad env g e n [] := by
  unfold attachScript
  rw [hc]
  rfl

lemma attachScript_load {env : ScriptEnv} {g : EngineS} {e : EntityS}
    {n : String} (hc : g.loaded.contains n = false)
    (hlo : env.loadOk n = true) :
    attachScript env g e n = attachAfterLoad env ⟨n :: g.loaded⟩ e n [Ev.load n] := by
  unfold attachScript
  rw [hc, hlo]
  rfl

lemma attachScript_loadFail {env : ScriptEnv} {g : EngineS} {e : EntityS}
    {n : String} (hc : g.loaded.contains n = false)
    (hlo : env.loadOk n = false) :
    attachScript env g e n = ⟨none, g, e, [Ev.load n]⟩ := by
  unfold attachScript
  rw [hc, hlo]
  rfl

lemma attachAfterLoad_existing {env : ScriptEnv} {g : EngineS} {e : EntityS}
    {n : String} {evs : List Ev} {i : Nat} (h : e.scripts.lookup n = some i) :
    attachAfterLoad env g e n evs = ⟨some i, g, e, evs⟩ := by
  unfold attachAfterLoad
  rw [h]

lemma attachAfterLoad_ctorFail {env : ScriptEnv} {g : EngineS} {e : EntityS}
    {n : String} {evs : List Ev} (h : e.scripts.lookup n = none)
    (hctor : env.ctorOk n = false) :
    attachAfterLoad env g e n evs = ⟨none, g, e, evs ++ [Ev.construct n]⟩ := by
  unfold attachAfterLoad
  rw [h, hctor]
  rfl

lemma attachAfterLoad_initFail {env : ScriptEnv} {g : EngineS} {e : EntityS}
    {n : String} {evs : List Ev} (h : e.scripts.lookup n = none)
    (hctor : env.ctorOk n = true) (hhas : env.hasInit n = true)
    (hok : env.initOk n = false) :
    attachAfterLoad env g e n evs =
      ⟨none, g, ⟨e.scripts ++ [(n, e.nextId)], e.nextId + 1⟩,
        evs ++ [Ev.construct n] ++ [Ev.init n]⟩ := by
  unfold attachAfterLoad
  rw [h, hctor, hhas, hok]
  rfl

lemma attachAfterLoad_ok {env : ScriptEnv} {g : EngineS} {e : EntityS}
    {n : String} {evs : List Ev} (h : e.scripts.lookup n = none)
    (hctor : env.ctorOk n = true) (hhas : env.hasInit n = true)
    (hok : env.initOk n = true) :
    attachAfterLoad env g e n evs =
      ⟨some e.nextId, g, ⟨e.scripts ++ [(n, e.nextId)], e.nextId + 1⟩,
        evs ++ [Ev.construct n] ++ [Ev.init n]⟩ := by
  unfold attachAfterLoad
  rw [h, hctor, hhas, hok]
  rfl

/-- The environment in which every script loads, constructs and has an
`init` method, but `init()` throws. -/
def initFailEnv : ScriptEnv :=
  ⟨fun _ => true, fun _ => true, fun _ => true, fun _ => false⟩

/-- C1 counterexample: with script `"S"` loaded, construction succeeding
and `init()` throwing, `attachScript` returns `null` — yet the entity's
behavior mapping has gained the partially-attached instance: the mapping is
not the same as before the failed call. -/
theorem attach_initFail_cex :
    (attachScript initFailEnv ⟨["S"]⟩ ⟨[], 0⟩ "S").result = none ∧
      (attachScript initFailEnv ⟨["S"]⟩ ⟨[], 0⟩ "S").entity.scripts ≠
        (⟨[], 0⟩ : EntityS).scripts := by
  constructor
  · rfl
  · simp [attachScript, attachAfterLoad, initFailEnv]

/-- C1 amended: when `attachScript` fails and returns `null` because the
behavior module cannot be loaded, or because construction throws, the
entity's behavior mapping is unchanged by the call; but when the instance's
`init()` throws, the call returns `null` while the freshly constructed
instance remains appended to the behavior mapping — insertion happens
before `init`, and the catch does not roll it back. -/
theorem attachScript_failure_spec (env : ScriptEnv) (g : EngineS)
    (e : EntityS) (n : String) :
    (g.loaded.contains n = false → env.loadOk n = false →
      attachScript env g e n = ⟨none, g, e, [Ev.load n]⟩) ∧
    ((g.loaded.contains n = true ∨ env.loadOk n = true) →
      e.scripts.lookup n = none → env.ctorOk n = false →
      (attachScript env g e n).result = none ∧
        (attachScript env g e n).entity = e) ∧
    ((g.loaded.contains n = true ∨ env.loadOk n = true) →
      e.scripts.lookup n = none → env.ctorOk n = true →
      env.hasInit n = true → env.initOk n = false →
      (attachScript env g e n).result = none ∧
        (attachScript env g e n).entity.scripts = e.scripts ++ [(n, e.nextId)]) := by
  refine ⟨fun h1 h2 => ?_, fun hl hlook hctor => ?_, fun hl hlook hctor hhas hok => ?_⟩
  · exact attachScript_loadFail h1 h2
  · by_cases hc : g.loaded.contains n = true
    · rw [attachScript_loaded hc, attachAfterLoad_ctorFail hlook hctor]
      exact ⟨rfl, rfl⟩
    · have hlo : env.loadOk n = true := by
        rcases hl with h | h
        · exact absurd h hc
        · exact h
      rw [attachScript_load (by simpa using hc) hlo,
        attachAfterLoad_ctorFail hlook hctor]
      exact ⟨rfl, rfl⟩
  · by_cases hc : g.loaded.contains n = true
    · rw [attachScript_loaded hc, attachAfterLoad_initFail hlook hctor hhas hok]
      exact ⟨rfl, rfl⟩
    · have hlo : env.loadOk n = true := by
        rcases hl with h | h
        · exact absurd h hc
        · exact h
      rw [attachScript_load (by simpa using hc) hlo,
        attachAfterLoad_initFail hlook hctor hhas hok]
      exact ⟨rfl, rfl⟩

/-- C7: attaching a behavior with an `init` method to an entity that does
not yet host it constructs and initializes one instance; a second
`attachScript` call with the same name then returns that same existing
instance, changes no engine or entity state, and records no events at all —
in particular it constructs no new instance and does not invoke `init`
again, so across the two calls `init` runs exactly once. -/
theorem attach_idempotent_spec (env : ScriptEnv) (g : EngineS) (e : EntityS)
    (n : String) (hfresh : e.scripts.lookup n = none)
    (hload : g.loaded.contains n = true ∨ env.loadOk n = true)
    (hctor : env.ctorOk n = true) (hhas : env.hasInit n = true)
    (hok : env.initOk n = true) :
    (attachScript env g e n).result = some e.nextId ∧
    (attachScript env g e n).events.count (Ev.init n) = 1 ∧
    attachScript env (attachScript env g e n).engine
        (attachScript env g e n).entity n =
      ⟨(attachScript env g e n).result, (attachScript env g e n).engine,
        (attachScript env g e n).entity, []⟩ := by
  have hlook2 : (e.scripts ++ [(n, e.nextId)]).lookup n = some e.nextId := by
    rw [lookup_append_none hfresh]
    simp [List.lookup]
  by_cases hc : g.loaded.contains n = true
  · rw [attachScript_loaded hc, attachAfterLoad_ok hfresh hctor hhas hok]
    refine ⟨rfl, by simp [List.count_cons], ?_⟩
    rw [attachScript_loaded hc]
    exact attachAfterLoad_existing hlook2
  · have hlo : env.loadOk n = true := by
      rcases hload with h | h
      · exact absurd h hc
      · exact h
    rw [attachScript_load (by simpa using hc) hlo,
      attachAfterLoad_ok hfresh hctor hhas hok]
    refine ⟨rfl, by simp [List.count_cons], ?_⟩
    rw [attachScript_loaded (by simp : (⟨n :: g.loaded⟩ : EngineS).loaded.contains n = true)]
    exact attachAfterLoad_existing hlook2

/-- The environment in which every script loads, constructs, and
initializes successfully. -/
def allOkEnv : ScriptEnv :=
  ⟨fun _ => true, fun _ => true, fun _ => true, fun _ => true⟩

/-- Witness for C7: attach `"S"` twice to a fresh entity in the all-success
environment. -/
theorem attach_idempotent_witness :
    (attachScript allOkEnv ⟨[]⟩ ⟨[], 0⟩ "S").result = some 0 ∧
    (attachScript allOkEnv ⟨[]⟩ ⟨[], 0⟩ "S").events.count (Ev.init "S") = 1 ∧
    attachScript allOkEnv (attachScript allOkEnv ⟨[]⟩ ⟨[], 0⟩ "S").engine
        (attachScript allOkEnv ⟨[]⟩ ⟨[], 0⟩ "S").entity "S" =
      ⟨(attachScript allOkEnv ⟨[]⟩ ⟨[], 0⟩ "S").result,
        (attachScript allOkEnv ⟨[]⟩ ⟨[], 0⟩ "S").engine,
        (attachScript allOkEnv ⟨[]⟩ ⟨[], 0⟩ "S").entity, []⟩ :=
  attach_idempotent_spec allOkEnv ⟨[]⟩ ⟨[], 0⟩ "S" rfl (Or.inr rfl) rfl rfl rfl

/-- C8: when the scene is active and not paused, `Scene.update(deltaTime)`
transforms every entity by exactly the claimed per-entity step
(`sceneStepSpec`): an `active && solid` entity has its pre-update position
captured, is updated by `Entity.update(deltaTime)`, has its world-space
collision rectangle (position plus `collisionBounds.offset`, bounds
width/height) tested by `checkRectCollision`, and on a hit both coordinates
are reverted to the snapshot and the `onCollision` hook is invoked if
present; an active non-solid entity is updated with no collision check; an
inactive entity is skipped. -/
theorem sceneUpdate_spec (env : Env) (s : Scene) (dt : ℚ)
    (hact : s.isActive = true) (hp : s.isPaused = false) :
    sceneUpdate env s dt =
      { s with entities := s.entities.map (sceneStepSpec env s dt) } := by
  unfold sceneUpdate
  rw [hact, hp]
  rw [if_neg (by simp)]
  congr 1
  congr 1
  funext e
  unfold sceneStepSpec
  cases ha : e.active <;> cases hs : e.solid <;> simp [ha, hs]

/-- The trivial environment: scripts and hooks that change nothing. -/
def demoEnv : Env := ⟨fun _ _ e => e, fun _ e => e⟩

/-- A solid, active entity sitting at the origin of the demo grid. -/
def demoEcore : Ecore := ⟨0, 0, 1, 1, true, true, 1, 1, 0, 0, [], none⟩

/-- An active, unpaused scene on the fully solid `1 × 1` grid holding one
solid entity. -/
def demoScene8 : Scene := ⟨1, 1, some [1], [demoEcore], true, false⟩

/-- Witness for C8 on the concrete one-entity scene. -/
theorem sceneUpdate_spec_witness :
    sceneUpdate demoEnv demoScene8 1 =
      { demoScene8 with
        entities := demoScene8.entities.map (sceneStepSpec demoEnv demoScene8 1) } :=
  sceneUpdate_spec demoEnv demoScene8 1 rfl rfl

/-- C9: `Player.update(deltaTime)` resolves movement per axis in the fixed
order X before Y — the X displacement is applied and collision-tested
alone, and on a hit the X position is reverted to its pre-update value and
the X velocity zeroed; then the Y displacement is applied and tested alone,
and on a hit the Y position is reverted and the Y velocity zeroed
(`playerMoveSpec`); a collision on one axis leaves the other axis's
displacement and velocity unaffected, so moving diagonally into a wall
blocking only the X path yields pure Y movement with X velocity zeroed and
Y velocity unchanged.  The attached scripts' `update` methods then run on
the resolved state. -/
theorem playerUpdate_axis_spec (penv : Nat → ℚ → PlayerS → PlayerS)
    (normalizer : ℚ) (scene : Option Scene) (dt : ℚ) (p : PlayerS) :
    playerUpdate penv normalizer scene dt p =
      (playerMoveSpec normalizer scene dt p).scriptIds.foldl
        (fun acc sid => penv sid dt acc) (playerMoveSpec normalizer scene dt p) := by
  obtain ⟨px, py, vx, vy, sp, iu, idn, il, ir, ox, oy, bw, bh, si⟩ := p
  cases iu <;> cases idn <;> cases il <;> cases ir <;>
    simp [playerUpdate, playerMoveSpec, inputVelocity] <;>
    split_ifs <;> simp_all

end Bark
